import Mathlib

/-!
Verification of the agentic decision-engine orchestration core.

Shallow embedding of the three topology runners (`run_council`,
`run_dxo`, `run_ensemble`) from `agentic/frameworks/` together with the
shared data model from `agentic/types.py` and the CLI dispatch from
`agentic/cli/main.py`.

Modelling conventions:
- Python dataclasses become Lean structures with the same field names.
- The per-task `framework_config` dict becomes a structure of `Option`
  fields; `cfg["key"]` on an absent key is a Python `KeyError`, modelled
  by `RunError.keyError key`.
- The model-invocation collaborator `invoke_model` is a parameter
  `invoke : Invoke` (a pure function returning `Except`), matching the
  spec's external-collaborator contract.
- `asyncio.gather` over the fan-out branches is modelled by
  `gatherExcept branches sched`, where `sched : List Nat` is the order
  in which branch completions are observed (completion jitter).  As in
  `asyncio.gather`, results are slotted back in argument order, and the
  first observed branch exception aborts the join.
- Each runner also returns the list of invocation calls actually made
  (`List Call`), logged at the point the call is issued; fan-out
  branches are all launched before the join, so all fan-out calls are
  logged even when one of them fails.
-/

/-- A chat message, from `agentic/types.py` (`ChatMessage`): a role
string and the text content. -/
structure ChatMessage where
  role : String
  content : String
deriving Repr, DecidableEq

/-- A trace record, from `agentic/types.py` (`AgentMessage`):
role id, model key, stage, and content. -/
structure AgentMessage where
  role_id : String
  model_key : String
  stage : String
  content : String
deriving Repr, DecidableEq

/-- A council member entry of the `members` config list
(`{"id": ..., "model": ...}` dicts in `council.py`). -/
structure CouncilMember where
  id : String
  model : String
deriving Repr, DecidableEq

/-- The per-task framework configuration (`framework_config` dict).
Each key that some topology reads is an `Option` field; `none` models
the key being absent from the dict. -/
structure FrameworkConfig where
  members : Option (List CouncilMember) := none
  chair : Option String := none
  researcher : Option String := none
  reviewer : Option String := none
  synthesizer : Option String := none
  models : Option (List String) := none
  aggregator : Option String := none
deriving Repr, DecidableEq

/-- A decision task, from `agentic/types.py` (`DecisionTask`). -/
structure DecisionTask where
  id : String
  question : String
  framework : String
  framework_config : FrameworkConfig
deriving Repr, DecidableEq

/-- The result of a run, from `agentic/types.py` (`DecisionResult`).
`metadata` is an association list modelling the Python metadata dict. -/
structure DecisionResult where
  task_id : String
  final_answer : String
  messages : List AgentMessage
  metadata : List (String × String)
deriving Repr, DecidableEq

/-- Errors a run can surface: `keyError k` models the Python `KeyError`
raised by `cfg[k]` on a missing key; `valueError msg` models a raised
`ValueError` (unknown framework in `cli/main.py`, unknown model in
`models.py`); `invocationFailed d` models a failed backend call. -/
inductive RunError where
  | keyError (key : String)
  | valueError (msg : String)
  | invocationFailed (detail : String)
deriving Repr, DecidableEq

/-- The model-invocation collaborator contract from the spec:
`invoke(modelKey, messages) -> text`, possibly failing. -/
abbrev Invoke : Type := String → List ChatMessage → Except RunError String

/-- One invocation call as issued: the model key and the messages. -/
abbrev Call : Type := String × List ChatMessage

/-- Join the branch results of a fan-out in argument (slot) order,
failing on the first branch error; used by `gatherExcept` once no
branch error was observed in completion order. -/
def collect {E A : Type} : List (Except E A) → Except E (List A)
  | [] => Except.ok []
  | Except.error e :: _ => Except.error e
  | Except.ok a :: bs =>
    match collect bs with
    | Except.error e => Except.error e
    | Except.ok as => Except.ok (a :: as)

/-- The branch-failure observation made at position `i` of the launched
branch list: `some e` when branch `i` exists and failed with `e`. -/
def branchFail {E A : Type} (branches : List (Except E A)) (i : Nat) : Option E :=
  match branches[i]? with
  | some (Except.error e) => some e
  | _ => none

/-- Model of `asyncio.gather` over already-launched branches: `sched`
is the order in which branch completions are observed.  The first
branch observed to have failed aborts the join with that branch's
error; otherwise all results are returned in argument (slot) order,
independently of `sched`. -/
def gatherExcept {E A : Type} (branches : List (Except E A)) (sched : List Nat) :
    Except E (List A) :=
  match sched.findSome? (branchFail branches) with
  | some e => Except.error e
  | none => collect branches

theorem collect_map_ok {E A : Type} (l : List A) :
    collect (l.map (Except.ok : A → Except E A)) = Except.ok l := by
  induction l with
  | nil => rfl
  | cons a as ih => simp [collect, ih]

theorem collect_ok_elim {E A : Type} {bs : List (Except E A)} {l : List A}
    (h : collect bs = Except.ok l) : bs = l.map Except.ok := by
  induction bs generalizing l with
  | nil =>
    simp only [collect] at h
    cases h
    rfl
  | cons b bs ih =>
    cases b with
    | error e => simp [collect] at h
    | ok a =>
      rcases hc : collect bs with e | as
      · rw [collect, hc] at h
        cases h
      · rw [collect, hc] at h
        cases h
        simp [ih hc]

theorem findSome?_eq_none_of_forall {E : Type} (f : Nat → Option E)
    (sched : List Nat) (h : ∀ i, f i = none) :
    sched.findSome? f = none := by
  induction sched with
  | nil => rfl
  | cons j js ih => simp [List.findSome?_cons, h j, ih]

theorem branchFail_of_all_ok {E A : Type} (l : List A) (i : Nat) :
    branchFail (l.map (Except.ok : A → Except E A)) i = none := by
  unfold branchFail
  rw [List.getElem?_map]
  rcases hl : l[i]? with _ | a <;> simp [hl]

theorem gatherExcept_ok_elim {E A : Type} {bs : List (Except E A)}
    {sched : List Nat} {l : List A}
    (h : gatherExcept bs sched = Except.ok l) : bs = l.map Except.ok := by
  unfold gatherExcept at h
  rcases hf : sched.findSome? (branchFail bs) with _ | e
  · rw [hf] at h
    exact collect_ok_elim h
  · rw [hf] at h
    cases h

theorem gatherExcept_ok_intro {E A : Type} {bs : List (Except E A)}
    {l : List A} (h : bs = l.map Except.ok) (sched : List Nat) :
    gatherExcept bs sched = Except.ok l := by
  subst h
  unfold gatherExcept
  rw [findSome?_eq_none_of_forall _ sched (branchFail_of_all_ok l)]
  exact collect_map_ok l

theorem gatherExcept_error_of_mem {E A : Type} {bs : List (Except E A)}
    {sched : List Nat} {i : Nat} {e : E}
    (hmem : i ∈ sched) (hb : bs[i]? = some (Except.error e)) :
    ∃ er, gatherExcept bs sched = Except.error er := by
  induction sched with
  | nil => cases hmem
  | cons j js ih =>
    unfold gatherExcept
    rw [List.findSome?_cons]
    rcases hf : branchFail bs j with _ | e2
    · have hij : i ≠ j := by
        intro hq
        subst hq
        unfold branchFail at hf
        rw [hb] at hf
        cases hf
      have hmem2 : i ∈ js := by
        cases hmem with
        | head => exact absurd rfl hij
        | tail _ hq => exact hq
      have hrec := ih hmem2
      unfold gatherExcept at hrec
      simpa using hrec
    · exact ⟨e2, by simp⟩

/-- One fan-out branch of the council (`call_member` in
`agentic/frameworks/council.py`): invoke the member's model on the raw
question and wrap the content in an `AgentMessage` with
`stage="initial"` and `role_id` = the member's configured id. -/
def call_member (invoke : Invoke) (question : String) (member : CouncilMember) :
    Except RunError AgentMessage :=
  (invoke member.model [ChatMessage.mk "user" question]).map
    (fun content => AgentMessage.mk member.id member.model "initial" content)

/-- The chair synthesis prompt (`build_chair_prompt` in
`agentic/frameworks/council.py`). -/
def build_chair_prompt (question : String) (members : List AgentMessage) : String :=
  String.intercalate "\n"
    ([ "You are the chair of an expert council.",
       "Summarize consensus, disagreements, and give a final recommendation.\n",
       "Question:\n" ++ question ++ "\n",
       "Expert inputs:\n" ] ++
     members.map (fun m => m.role_id ++ ":\n" ++ m.content ++ "\n"))

/-- The council topology (`run_council` in
`agentic/frameworks/council.py`).  Returns the run outcome together
with the list of invocation calls issued.  All member branches are
launched (and hence logged) before the `asyncio.gather` join, which is
modelled by `gatherExcept` with completion order `sched`. -/
def run_council (invoke : Invoke) (sched : List Nat) (task : DecisionTask) :
    Except RunError DecisionResult × List Call :=
  match task.framework_config.members with
  | none => (Except.error (RunError.keyError "members"), [])
  | some members =>
  match task.framework_config.chair with
  | none => (Except.error (RunError.keyError "chair"), [])
  | some chair_model =>
  let fanout_calls : List Call :=
    members.map (fun m => (m.model, [ChatMessage.mk "user" task.question]))
  match gatherExcept (members.map (call_member invoke task.question)) sched with
  | Except.error e => (Except.error e, fanout_calls)
  | Except.ok member_msgs =>
  let chair_prompt := build_chair_prompt task.question member_msgs
  match invoke chair_model [ChatMessage.mk "user" chair_prompt] with
  | Except.error e =>
    (Except.error e, fanout_calls ++ [(chair_model, [ChatMessage.mk "user" chair_prompt])])
  | Except.ok chair_answer =>
    (Except.ok
      { task_id := task.id
        final_answer := chair_answer
        messages := member_msgs ++
          [AgentMessage.mk "chair" chair_model "synthesis" chair_answer]
        metadata := [("framework", "council")] },
     fanout_calls ++ [(chair_model, [ChatMessage.mk "user" chair_prompt])])

/-- The prompt of the dxo research stage (`run_dxo` stage 1). -/
def dxoResearchPrompt (question : String) : String :=
  "Research:\n" ++ question

/-- The prompt of the dxo critique stage (`run_dxo` stage 2). -/
def dxoCritiquePrompt (research : String) : String :=
  "Critique this research:\n" ++ research

/-- The prompt of the dxo synthesis stage (`run_dxo` stage 3). -/
def dxoSynthesisPrompt (question research critique : String) : String :=
  "Question:\n" ++ question ++ "\n\n" ++
  "Research:\n" ++ research ++ "\n\n" ++
  "Critique:\n" ++ critique ++ "\n\n" ++
  "Produce a final decision with caveats."

/-- The dxo topology (`run_dxo` in `agentic/frameworks/dxo.py`):
three strictly sequential stages, each consuming the prior stage's
literal output.  Returns the run outcome together with the list of
invocation calls issued, in order. -/
def run_dxo (invoke : Invoke) (task : DecisionTask) :
    Except RunError DecisionResult × List Call :=
  match task.framework_config.researcher with
  | none => (Except.error (RunError.keyError "researcher"), [])
  | some researcher =>
  match task.framework_config.reviewer with
  | none => (Except.error (RunError.keyError "reviewer"), [])
  | some reviewer =>
  match task.framework_config.synthesizer with
  | none => (Except.error (RunError.keyError "synthesizer"), [])
  | some synthesizer =>
  match invoke researcher [ChatMessage.mk "user" (dxoResearchPrompt task.question)] with
  | Except.error e =>
    (Except.error e,
     [(researcher, [ChatMessage.mk "user" (dxoResearchPrompt task.question)])])
  | Except.ok research =>
  match invoke reviewer [ChatMessage.mk "user" (dxoCritiquePrompt research)] with
  | Except.error e =>
    (Except.error e,
     [(researcher, [ChatMessage.mk "user" (dxoResearchPrompt task.question)]),
      (reviewer, [ChatMessage.mk "user" (dxoCritiquePrompt research)])])
  | Except.ok critique =>
  match invoke synthesizer
      [ChatMessage.mk "user" (dxoSynthesisPrompt task.question research critique)] with
  | Except.error e =>
    (Except.error e,
     [(researcher, [ChatMessage.mk "user" (dxoResearchPrompt task.question)]),
      (reviewer, [ChatMessage.mk "user" (dxoCritiquePrompt research)]),
      (synthesizer, [ChatMessage.mk "user" (dxoSynthesisPrompt task.question research critique)])])
  | Except.ok synthesis =>
    (Except.ok
      { task_id := task.id
        final_answer := synthesis
        messages :=
          [AgentMessage.mk "researcher" researcher "initial" research,
           AgentMessage.mk "reviewer" reviewer "critique" critique,
           AgentMessage.mk "synthesizer" synthesizer "synthesis" synthesis]
        metadata := [("framework", "dxo")] },
     [(researcher, [ChatMessage.mk "user" (dxoResearchPrompt task.question)]),
      (reviewer, [ChatMessage.mk "user" (dxoCritiquePrompt research)]),
      (synthesizer, [ChatMessage.mk "user" (dxoSynthesisPrompt task.question research critique)])])

/-- One fan-out branch of the ensemble (`call_model` in
`agentic/frameworks/ensemble.py`): invoke the model on the raw
question and record it under the anonymized role id `agent_<idx>`
derived from its position in the configured list. -/
def call_model (invoke : Invoke) (question : String) (p : Nat × String) :
    Except RunError AgentMessage :=
  (invoke p.2 [ChatMessage.mk "user" question]).map
    (fun content => AgentMessage.mk ("agent_" ++ toString p.1) p.2 "initial" content)

/-- The aggregation prompt of the ensemble, built by string
accumulation exactly as the loop in `run_ensemble` does. -/
def aggPrompt (agent_msgs : List AgentMessage) : String :=
  agent_msgs.foldl (fun acc m => acc ++ m.role_id ++ ":\n" ++ m.content ++ "\n\n")
    "Aggregate the following anonymous answers:\n\n"

/-- The ensemble topology (`run_ensemble` in
`agentic/frameworks/ensemble.py`).  `models.enum` models Python's
`enumerate(models)`.  Returns the run outcome together with the list
of invocation calls issued. -/
def run_ensemble (invoke : Invoke) (sched : List Nat) (task : DecisionTask) :
    Except RunError DecisionResult × List Call :=
  match task.framework_config.models with
  | none => (Except.error (RunError.keyError "models"), [])
  | some models =>
  match task.framework_config.aggregator with
  | none => (Except.error (RunError.keyError "aggregator"), [])
  | some aggregator =>
  let fanout_calls : List Call :=
    models.map (fun m => (m, [ChatMessage.mk "user" task.question]))
  match gatherExcept (models.enum.map (call_model invoke task.question)) sched with
  | Except.error e => (Except.error e, fanout_calls)
  | Except.ok agent_msgs =>
  let agg_prompt := aggPrompt agent_msgs
  match invoke aggregator [ChatMessage.mk "user" agg_prompt] with
  | Except.error e =>
    (Except.error e, fanout_calls ++ [(aggregator, [ChatMessage.mk "user" agg_prompt])])
  | Except.ok final =>
    (Except.ok
      { task_id := task.id
        final_answer := final
        messages := agent_msgs ++
          [AgentMessage.mk "aggregator" aggregator "synthesis" final]
        metadata := [("framework", "ensemble")] },
     fanout_calls ++ [(aggregator, [ChatMessage.mk "user" agg_prompt])])

/-- The CLI dispatch (`main` in `agentic/cli/main.py`): selects the
topology by name-string comparison, installs the hard-coded per-
framework config, and runs the matching topology function; any other
name raises `ValueError("Unknown framework")` before any invocation.
The `uuid.uuid4()` task id is modelled by the parameter `idStr`. -/
def main_run (invoke : Invoke) (sched : List Nat) (idStr question framework : String) :
    Except RunError DecisionResult × List Call :=
  if framework = "council" then
    run_council invoke sched
      { id := idStr, question := question, framework := framework
        framework_config :=
          { members := some [CouncilMember.mk "alpha" "small", CouncilMember.mk "beta" "large"]
            chair := some "large" } }
  else if framework = "dxo" then
    run_dxo invoke
      { id := idStr, question := question, framework := framework
        framework_config :=
          { researcher := some "small", reviewer := some "small"
            synthesizer := some "large" } }
  else if framework = "ensemble" then
    run_ensemble invoke sched
      { id := idStr, question := question, framework := framework
        framework_config :=
          { models := some ["small", "large"], aggregator := some "large" } }
  else
    (Except.error (RunError.valueError "Unknown framework"), [])

/-- Task-state threading form of `run_council`.  The source never
assigns to `task` or any of its fields, so the explicit state-passing
embedding of the runner returns the task as received. -/
def run_council_state (invoke : Invoke) (sched : List Nat) (task : DecisionTask) :
    (Except RunError DecisionResult × List Call) × DecisionTask :=
  (run_council invoke sched task, task)

/-- Task-state threading form of `run_dxo`; the source never assigns
to `task` or any of its fields. -/
def run_dxo_state (invoke : Invoke) (task : DecisionTask) :
    (Except RunError DecisionResult × List Call) × DecisionTask :=
  (run_dxo invoke task, task)

/-- Task-state threading form of `run_ensemble`; the source never
assigns to `task` or any of its fields. -/
def run_ensemble_state (invoke : Invoke) (sched : List Nat) (task : DecisionTask) :
    (Except RunError DecisionResult × List Call) × DecisionTask :=
  (run_ensemble invoke sched task, task)

/-- The council fan-out call list, as launched (configured order). -/
def councilFanoutCalls (question : String) (ms : List CouncilMember) : List Call :=
  ms.map (fun m => (m.model, [ChatMessage.mk "user" question]))

/-- The ensemble fan-out call list, as launched (configured order). -/
def ensembleFanoutCalls (question : String) (models : List String) : List Call :=
  models.map (fun m => (m, [ChatMessage.mk "user" question]))

theorem run_council_ok_shape {invoke : Invoke} {sched : List Nat}
    {task : DecisionTask} {ms : List CouncilMember} {cm : String}
    {r : DecisionResult} {s : List Call}
    (hm : task.framework_config.members = some ms)
    (hc : task.framework_config.chair = some cm)
    (hrun : run_council invoke sched task = (Except.ok r, s)) :
    ∃ msgs ans,
      ms.map (call_member invoke task.question) = msgs.map Except.ok ∧
      invoke cm [ChatMessage.mk "user" (build_chair_prompt task.question msgs)] =
        Except.ok ans ∧
      r = { task_id := task.id, final_answer := ans
            messages := msgs ++ [AgentMessage.mk "chair" cm "synthesis" ans]
            metadata := [("framework", "council")] } ∧
      s = councilFanoutCalls task.question ms ++
          [(cm, [ChatMessage.mk "user" (build_chair_prompt task.question msgs)])] := by
  simp only [run_council, hm, hc] at hrun
  rcases hg : gatherExcept (ms.map (call_member invoke task.question)) sched with e | msgs
  · simp only [hg] at hrun
    simp at hrun
  · simp only [hg] at hrun
    rcases hi : invoke cm
        [ChatMessage.mk "user" (build_chair_prompt task.question msgs)] with e | ans
    · simp only [hi] at hrun
      simp at hrun
    · simp only [hi] at hrun
      obtain ⟨h1, h2⟩ := Prod.mk.inj hrun
      refine ⟨msgs, ans, ?_, hi, ?_, ?_⟩
      · have := gatherExcept_ok_elim hg
        exact this
      · cases h1
        rfl
      · rw [← h2]
        rfl

theorem run_council_ok_intro {invoke : Invoke} (sched : List Nat)
    {task : DecisionTask} {ms : List CouncilMember} {cm : String}
    {msgs : List AgentMessage} {ans : String}
    (hm : task.framework_config.members = some ms)
    (hc : task.framework_config.chair = some cm)
    (hmsgs : ms.map (call_member invoke task.question) = msgs.map Except.ok)
    (hi : invoke cm [ChatMessage.mk "user" (build_chair_prompt task.question msgs)] =
      Except.ok ans) :
    run_council invoke sched task =
      (Except.ok
        { task_id := task.id, final_answer := ans
          messages := msgs ++ [AgentMessage.mk "chair" cm "synthesis" ans]
          metadata := [("framework", "council")] },
       councilFanoutCalls task.question ms ++
         [(cm, [ChatMessage.mk "user" (build_chair_prompt task.question msgs)])]) := by
  simp only [run_council, hm, hc, gatherExcept_ok_intro hmsgs sched, hi,
    councilFanoutCalls]

theorem run_ensemble_ok_shape {invoke : Invoke} {sched : List Nat}
    {task : DecisionTask} {models : List String} {agg : String}
    {r : DecisionResult} {s : List Call}
    (hm : task.framework_config.models = some models)
    (ha : task.framework_config.aggregator = some agg)
    (hrun : run_ensemble invoke sched task = (Except.ok r, s)) :
    ∃ msgs ans,
      models.enum.map (call_model invoke task.question) = msgs.map Except.ok ∧
      invoke agg [ChatMessage.mk "user" (aggPrompt msgs)] = Except.ok ans ∧
      r = { task_id := task.id, final_answer := ans
            messages := msgs ++ [AgentMessage.mk "aggregator" agg "synthesis" ans]
            metadata := [("framework", "ensemble")] } ∧
      s = ensembleFanoutCalls task.question models ++
          [(agg, [ChatMessage.mk "user" (aggPrompt msgs)])] := by
  simp only [run_ensemble, hm, ha] at hrun
  rcases hg : gatherExcept (models.enum.map (call_model invoke task.question)) sched
    with e | msgs
  · simp only [hg] at hrun
    simp at hrun
  · simp only [hg] at hrun
    rcases hi : invoke agg [ChatMessage.mk "user" (aggPrompt msgs)] with e | ans
    · simp only [hi] at hrun
      simp at hrun
    · simp only [hi] at hrun
      obtain ⟨h1, h2⟩ := Prod.mk.inj hrun
      refine ⟨msgs, ans, gatherExcept_ok_elim hg, hi, ?_, ?_⟩
      · cases h1
        rfl
      · rw [← h2]
        rfl

theorem run_ensemble_ok_intro {invoke : Invoke} (sched : List Nat)
    {task : DecisionTask} {models : List String} {agg : String}
    {msgs : List AgentMessage} {ans : String}
    (hm : task.framework_config.models = some models)
    (ha : task.framework_config.aggregator = some agg)
    (hmsgs : models.enum.map (call_model invoke task.question) = msgs.map Except.ok)
    (hi : invoke agg [ChatMessage.mk "user" (aggPrompt msgs)] = Except.ok ans) :
    run_ensemble invoke sched task =
      (Except.ok
        { task_id := task.id, final_answer := ans
          messages := msgs ++ [AgentMessage.mk "aggregator" agg "synthesis" ans]
          metadata := [("framework", "ensemble")] },
       ensembleFanoutCalls task.question models ++
         [(agg, [ChatMessage.mk "user" (aggPrompt msgs)])]) := by
  simp only [run_ensemble, hm, ha, gatherExcept_ok_intro hmsgs sched, hi,
    ensembleFanoutCalls]

theorem run_dxo_ok_shape {invoke : Invoke} {task : DecisionTask}
    {re rv sy : String} {r : DecisionResult} {s : List Call}
    (hre : task.framework_config.researcher = some re)
    (hrv : task.framework_config.reviewer = some rv)
    (hsy : task.framework_config.synthesizer = some sy)
    (hrun : run_dxo invoke task = (Except.ok r, s)) :
    ∃ research critique synthesis,
      invoke re [ChatMessage.mk "user" (dxoResearchPrompt task.question)] =
        Except.ok research ∧
      invoke rv [ChatMessage.mk "user" (dxoCritiquePrompt research)] =
        Except.ok critique ∧
      invoke sy [ChatMessage.mk "user"
          (dxoSynthesisPrompt task.question research critique)] =
        Except.ok synthesis ∧
      r = { task_id := task.id, final_answer := synthesis
            messages :=
              [AgentMessage.mk "researcher" re "initial" research,
               AgentMessage.mk "reviewer" rv "critique" critique,
               AgentMessage.mk "synthesizer" sy "synthesis" synthesis]
            metadata := [("framework", "dxo")] } ∧
      s = [(re, [ChatMessage.mk "user" (dxoResearchPrompt task.question)]),
           (rv, [ChatMessage.mk "user" (dxoCritiquePrompt research)]),
           (sy, [ChatMessage.mk "user"
              (dxoSynthesisPrompt task.question research critique)])] := by
  simp only [run_dxo, hre, hrv, hsy] at hrun
  rcases h1 : invoke re [ChatMessage.mk "user" (dxoResearchPrompt task.question)]
    with e | research
  · simp only [h1] at hrun
    simp at hrun
  · simp only [h1] at hrun
    rcases h2 : invoke rv [ChatMessage.mk "user" (dxoCritiquePrompt research)]
      with e | critique
    · simp only [h2] at hrun
      simp at hrun
    · simp only [h2] at hrun
      rcases h3 : invoke sy [ChatMessage.mk "user"
          (dxoSynthesisPrompt task.question research critique)] with e | synthesis
      · simp only [h3] at hrun
        simp at hrun
      · simp only [h3] at hrun
        obtain ⟨hA, hB⟩ := Prod.mk.inj hrun
        refine ⟨research, critique, synthesis, rfl, h2, h3, ?_, ?_⟩
        · cases hA
          rfl
        · rw [← hB]

theorem map_eq_map_ok_length {A B E : Type} {f : A → Except E B}
    {ms : List A} {msgs : List B}
    (h : ms.map f = msgs.map Except.ok) : msgs.length = ms.length := by
  have hq := congrArg List.length h
  simpa using hq.symm

theorem map_eq_map_ok_get {A B E : Type} {f : A → Except E B}
    {ms : List A} {msgs : List B}
    (h : ms.map f = msgs.map Except.ok) {i : Nat} {m : A}
    (hm : ms[i]? = some m) : ∃ b, msgs[i]? = some b ∧ f m = Except.ok b := by
  have hh := congrArg (fun l => l[i]?) h
  simp only [List.getElem?_map] at hh
  rw [hm] at hh
  rcases hb : msgs[i]? with _ | b
  · rw [hb] at hh
    simp at hh
  · rw [hb] at hh
    simp at hh
    exact ⟨b, rfl, hh⟩

/-- A deterministic invocation stub echoing the model key and the last
message's content, as in the spec's testable-properties section. -/
def stubEcho : Invoke := fun key msgs =>
  Except.ok (key ++ ":" ++ ((msgs.getLast?).map ChatMessage.content).getD "")

/-- The spec's council example members:
`[{id:"alpha",model:"small"},{id:"beta",model:"large"}]`. -/
def councilDemoMembers : List CouncilMember :=
  [CouncilMember.mk "alpha" "small", CouncilMember.mk "beta" "large"]

/-- The spec's council example task: members alpha/beta, chair `large`,
question `Q`. -/
def councilDemoTask : DecisionTask :=
  { id := "t1", question := "Q", framework := "council"
    framework_config :=
      { members := some councilDemoMembers, chair := some "large" } }

/-- The member records the demo council run produces under `stubEcho`. -/
def demoCouncilMsgs : List AgentMessage :=
  [AgentMessage.mk "alpha" "small" "initial" ("small" ++ ":" ++ "Q"),
   AgentMessage.mk "beta" "large" "initial" ("large" ++ ":" ++ "Q")]

/-- The chair prompt of the demo council run. -/
def demoChairPrompt : String := build_chair_prompt "Q" demoCouncilMsgs

/-- The result the demo council run produces under `stubEcho`. -/
def demoCouncilResult : DecisionResult :=
  { task_id := "t1"
    final_answer := "large" ++ ":" ++ demoChairPrompt
    messages := demoCouncilMsgs ++
      [AgentMessage.mk "chair" "large" "synthesis" ("large" ++ ":" ++ demoChairPrompt)]
    metadata := [("framework", "council")] }

/-- The calls the demo council run issues. -/
def demoCouncilCalls : List Call :=
  [("small", [ChatMessage.mk "user" "Q"]),
   ("large", [ChatMessage.mk "user" "Q"]),
   ("large", [ChatMessage.mk "user" demoChairPrompt])]

/-- Claim C1: for every council run with a non-empty configured member
list, the returned Result's trace consists of exactly one record per
member, in the configured member order (irrespective of which branch's
invocation completed first, i.e. for every completion schedule
`sched`), each with stage `"initial"`, role id equal to that member's
configured id, and model key equal to that member's configured model
key, followed by exactly one final record with role id `"chair"` and
stage `"synthesis"`; the final answer equals that chair record's
content. -/
theorem council_trace_configured_order {invoke : Invoke} {sched : List Nat}
    {task : DecisionTask} {ms : List CouncilMember} {cm : String}
    {r : DecisionResult} {s : List Call}
    (hm : task.framework_config.members = some ms)
    (hne : ms ≠ [])
    (hc : task.framework_config.chair = some cm)
    (hrun : run_council invoke sched task = (Except.ok r, s)) :
    r.messages.length = ms.length + 1 ∧
    (∀ (i : Nat) (m : CouncilMember), ms[i]? = some m → ∃ content,
      invoke m.model [ChatMessage.mk "user" task.question] = Except.ok content ∧
      r.messages[i]? = some (AgentMessage.mk m.id m.model "initial" content)) ∧
    r.messages[ms.length]? =
      some (AgentMessage.mk "chair" cm "synthesis" r.final_answer) := by
  obtain ⟨msgs, ans, hmap, hi, hr, hs⟩ := run_council_ok_shape hm hc hrun
  subst hr
  have hlen : msgs.length = ms.length := map_eq_map_ok_length hmap
  refine ⟨by simp [hlen], ?_, ?_⟩
  · intro i m hmi
    obtain ⟨b, hbi, hfb⟩ := map_eq_map_ok_get hmap hmi
    rcases hinv : invoke m.model [ChatMessage.mk "user" task.question] with e | content
    · rw [call_member, hinv] at hfb
      simp [Except.map] at hfb
    · rw [call_member, hinv] at hfb
      simp [Except.map] at hfb
      refine ⟨content, rfl, ?_⟩
      have hilt : i < msgs.length := by
        rw [hlen]
        exact (List.getElem?_eq_some.mp hmi).1
      show (msgs ++ _)[i]? = _
      rw [List.getElem?_append_left hilt, hbi, ← hfb]
  · show (msgs ++ _)[ms.length]? = _
    rw [← hlen]
    simp

/-- Witness for C1 at the spec's council ordering example, with
completion schedule `[1, 0]` (beta observed finishing before alpha). -/
theorem council_trace_configured_order_witness :
    councilDemoTask.framework_config.members = some councilDemoMembers ∧
    councilDemoMembers ≠ [] ∧
    councilDemoTask.framework_config.chair = some "large" ∧
    run_council stubEcho [1, 0] councilDemoTask =
      (Except.ok demoCouncilResult, demoCouncilCalls) ∧
    (demoCouncilResult.messages.length = councilDemoMembers.length + 1 ∧
     (∀ (i : Nat) (m : CouncilMember), councilDemoMembers[i]? = some m → ∃ content,
       stubEcho m.model [ChatMessage.mk "user" councilDemoTask.question] =
         Except.ok content ∧
       demoCouncilResult.messages[i]? =
         some (AgentMessage.mk m.id m.model "initial" content)) ∧
     demoCouncilResult.messages[councilDemoMembers.length]? =
       some (AgentMessage.mk "chair" "large" "synthesis"
         demoCouncilResult.final_answer)) := by
  have hrun : run_council stubEcho [1, 0] councilDemoTask =
      (Except.ok demoCouncilResult, demoCouncilCalls) := by rfl
  exact ⟨rfl, by decide, rfl, hrun,
    council_trace_configured_order rfl (by decide) rfl hrun⟩

/-- The dxo demo task: researcher/reviewer `small`, synthesizer
`large` (the CLI's hard-coded dxo config), question `Q`. -/
def dxoDemoTask : DecisionTask :=
  { id := "t2", question := "Q", framework := "dxo"
    framework_config :=
      { researcher := some "small", reviewer := some "small"
        synthesizer := some "large" } }

/-- Stage-1 output of the dxo demo run under `stubEcho`. -/
def demoResearch : String := "small" ++ ":" ++ dxoResearchPrompt "Q"

/-- Stage-2 output of the dxo demo run under `stubEcho`. -/
def demoCritique : String := "small" ++ ":" ++ dxoCritiquePrompt demoResearch

/-- Stage-3 output of the dxo demo run under `stubEcho`. -/
def demoSynthesis : String :=
  "large" ++ ":" ++ dxoSynthesisPrompt "Q" demoResearch demoCritique

/-- The result of the dxo demo run under `stubEcho`. -/
def dxoDemoResult : DecisionResult :=
  { task_id := "t2"
    final_answer := demoSynthesis
    messages :=
      [AgentMessage.mk "researcher" "small" "initial" demoResearch,
       AgentMessage.mk "reviewer" "small" "critique" demoCritique,
       AgentMessage.mk "synthesizer" "large" "synthesis" demoSynthesis]
    metadata := [("framework", "dxo")] }

/-- The calls the dxo demo run issues, in order. -/
def dxoDemoCalls : List Call :=
  [("small", [ChatMessage.mk "user" (dxoResearchPrompt "Q")]),
   ("small", [ChatMessage.mk "user" (dxoCritiquePrompt demoResearch)]),
   ("large", [ChatMessage.mk "user"
      (dxoSynthesisPrompt "Q" demoResearch demoCritique)])]

/-- Claim C2: for every successful dxo run, the invocation collaborator
is called exactly 3 times, strictly in order researcher, reviewer,
synthesizer; the second call's prompt contains the literal text
returned by the first call; the third call's prompt contains the
literal question, the literal first-call output, and the literal
second-call output; the trace is exactly the three records
researcher/initial, reviewer/critique, synthesizer/synthesis in that
order, and the final answer is the third call's output. -/
theorem dxo_sequential_pipeline {invoke : Invoke} {task : DecisionTask}
    {re rv sy : String} {r : DecisionResult} {s : List Call}
    (hre : task.framework_config.researcher = some re)
    (hrv : task.framework_config.reviewer = some rv)
    (hsy : task.framework_config.synthesizer = some sy)
    (hrun : run_dxo invoke task = (Except.ok r, s)) :
    ∃ research critique synthesis,
      invoke re [ChatMessage.mk "user" (dxoResearchPrompt task.question)] =
        Except.ok research ∧
      invoke rv [ChatMessage.mk "user" (dxoCritiquePrompt research)] =
        Except.ok critique ∧
      invoke sy [ChatMessage.mk "user"
          (dxoSynthesisPrompt task.question research critique)] =
        Except.ok synthesis ∧
      s = [(re, [ChatMessage.mk "user" (dxoResearchPrompt task.question)]),
           (rv, [ChatMessage.mk "user" (dxoCritiquePrompt research)]),
           (sy, [ChatMessage.mk "user"
              (dxoSynthesisPrompt task.question research critique)])] ∧
      (∃ u v, dxoCritiquePrompt research = u ++ research ++ v) ∧
      (∃ u v, dxoSynthesisPrompt task.question research critique =
        u ++ task.question ++ v) ∧
      (∃ u v, dxoSynthesisPrompt task.question research critique =
        u ++ research ++ v) ∧
      (∃ u v, dxoSynthesisPrompt task.question research critique =
        u ++ critique ++ v) ∧
      r.messages =
        [AgentMessage.mk "researcher" re "initial" research,
         AgentMessage.mk "reviewer" rv "critique" critique,
         AgentMessage.mk "synthesizer" sy "synthesis" synthesis] ∧
      r.final_answer = synthesis := by
  obtain ⟨research, critique, synthesis, h1, h2, h3, hr, hs⟩ :=
    run_dxo_ok_shape hre hrv hsy hrun
  subst hr
  refine ⟨research, critique, synthesis, h1, h2, h3, hs, ?_, ?_, ?_, ?_, rfl, rfl⟩
  · exact ⟨"Critique this research:\n", "", by
      simp [dxoCritiquePrompt]⟩
  · exact ⟨"Question:\n",
      "\n\n" ++ "Research:\n" ++ research ++ "\n\n" ++ "Critique:\n" ++ critique ++
        "\n\n" ++ "Produce a final decision with caveats.", by
      simp [dxoSynthesisPrompt, String.append_assoc]⟩
  · exact ⟨"Question:\n" ++ task.question ++ "\n\n" ++ "Research:\n",
      "\n\n" ++ "Critique:\n" ++ critique ++
        "\n\n" ++ "Produce a final decision with caveats.", by
      simp [dxoSynthesisPrompt, String.append_assoc]⟩
  · exact ⟨"Question:\n" ++ task.question ++ "\n\n" ++ "Research:\n" ++ research ++
        "\n\n" ++ "Critique:\n",
      "\n\n" ++ "Produce a final decision with caveats.", by
      simp [dxoSynthesisPrompt, String.append_assoc]⟩

/-- Witness for C2: the dxo demo run under `stubEcho`. -/
theorem dxo_sequential_pipeline_witness :
    dxoDemoTask.framework_config.researcher = some "small" ∧
    dxoDemoTask.framework_config.reviewer = some "small" ∧
    dxoDemoTask.framework_config.synthesizer = some "large" ∧
    run_dxo stubEcho dxoDemoTask = (Except.ok dxoDemoResult, dxoDemoCalls) ∧
    (∃ research critique synthesis,
      stubEcho "small" [ChatMessage.mk "user" (dxoResearchPrompt dxoDemoTask.question)] =
        Except.ok research ∧
      stubEcho "small" [ChatMessage.mk "user" (dxoCritiquePrompt research)] =
        Except.ok critique ∧
      stubEcho "large" [ChatMessage.mk "user"
          (dxoSynthesisPrompt dxoDemoTask.question research critique)] =
        Except.ok synthesis ∧
      dxoDemoCalls =
        [("small", [ChatMessage.mk "user" (dxoResearchPrompt dxoDemoTask.question)]),
         ("small", [ChatMessage.mk "user" (dxoCritiquePrompt research)]),
         ("large", [ChatMessage.mk "user"
            (dxoSynthesisPrompt dxoDemoTask.question research critique)])] ∧
      (∃ u v, dxoCritiquePrompt research = u ++ research ++ v) ∧
      (∃ u v, dxoSynthesisPrompt dxoDemoTask.question research critique =
        u ++ dxoDemoTask.question ++ v) ∧
      (∃ u v, dxoSynthesisPrompt dxoDemoTask.question research critique =
        u ++ research ++ v) ∧
      (∃ u v, dxoSynthesisPrompt dxoDemoTask.question research critique =
        u ++ critique ++ v) ∧
      dxoDemoResult.messages =
        [AgentMessage.mk "researcher" "small" "initial" research,
         AgentMessage.mk "reviewer" "small" "critique" critique,
         AgentMessage.mk "synthesizer" "large" "synthesis" synthesis] ∧
      dxoDemoResult.final_answer = synthesis) := by
  have hrun : run_dxo stubEcho dxoDemoTask = (Except.ok dxoDemoResult, dxoDemoCalls) := by
    rfl
  exact ⟨rfl, rfl, rfl, hrun, dxo_sequential_pipeline rfl rfl rfl hrun⟩

/-- An ensemble task whose configured model key is literally `agent_0`,
colliding with the position-derived anonymized role id. -/
def ensCexTask : DecisionTask :=
  { id := "t3x", question := "Q", framework := "ensemble"
    framework_config := { models := some ["agent_0"], aggregator := some "m3" } }

/-- Counterexample to C3 as stated: the fan-out role ids are derived
purely from list position, so when a configured model key is itself
`agent_0` the first trace record's role id equals that backend model
key — the role ids are not in general distinct from the model keys. -/
theorem ensemble_anonymized_roles_cex :
    Except.map (fun r => r.messages.map (fun a => (a.role_id, a.model_key)))
      (run_ensemble stubEcho [0] ensCexTask).1 =
    Except.ok [("agent_0", "agent_0"), ("aggregator", "m3")] := by rfl

/-- Claim C3 (amended): for every ensemble run with configured model
list of length M, the fan-out trace records carry role ids exactly
`agent_0 … agent_{M-1}`, derived purely from list position; whenever no
configured model key is itself of the form `agent_i` (as in the spec's
example `m1`/`m2`), these role ids differ from every configured model
key; and the aggregation prompt sent to the aggregator is built from
exactly these anonymized role ids with their contents, in configured
order, by `aggPrompt`. -/
theorem ensemble_anonymized_roles {invoke : Invoke} {sched : List Nat}
    {task : DecisionTask} {models : List String} {agg : String}
    {r : DecisionResult} {s : List Call}
    (hm : task.framework_config.models = some models)
    (ha : task.framework_config.aggregator = some agg)
    (hrun : run_ensemble invoke sched task = (Except.ok r, s)) :
    ∃ amsgs : List AgentMessage,
      amsgs.length = models.length ∧
      (∀ (i : Nat) (mkey : String), models[i]? = some mkey → ∃ content,
        invoke mkey [ChatMessage.mk "user" task.question] = Except.ok content ∧
        amsgs[i]? =
          some (AgentMessage.mk ("agent_" ++ toString i) mkey "initial" content)) ∧
      r.messages =
        amsgs ++ [AgentMessage.mk "aggregator" agg "synthesis" r.final_answer] ∧
      s = ensembleFanoutCalls task.question models ++
          [(agg, [ChatMessage.mk "user" (aggPrompt amsgs)])] ∧
      ((∀ i : Nat, i < models.length → ("agent_" ++ toString i) ∉ models) →
        ∀ a ∈ amsgs, a.role_id ∉ models) := by
  obtain ⟨msgs, ans, hmap, hi, hr, hs⟩ := run_ensemble_ok_shape hm ha hrun
  subst hr
  have hlen : msgs.length = models.length := by
    rw [map_eq_map_ok_length hmap, List.enum_length]
  have hpoint : ∀ (i : Nat) (mkey : String), models[i]? = some mkey → ∃ content,
      invoke mkey [ChatMessage.mk "user" task.question] = Except.ok content ∧
      msgs[i]? =
        some (AgentMessage.mk ("agent_" ++ toString i) mkey "initial" content) := by
    intro i mkey hmi
    have henum : models.enum[i]? = some (i, mkey) := by
      rw [List.getElem?_enum, hmi]
      rfl
    obtain ⟨b, hbi, hfb⟩ := map_eq_map_ok_get hmap henum
    rcases hinv : invoke mkey [ChatMessage.mk "user" task.question] with e | content
    · rw [call_model] at hfb
      simp [hinv, Except.map] at hfb
    · rw [call_model] at hfb
      simp [hinv, Except.map] at hfb
      exact ⟨content, rfl, by rw [hbi, ← hfb]⟩
  refine ⟨msgs, hlen, hpoint, rfl, hs, ?_⟩
  intro hanon a hmem
  obtain ⟨i, hia⟩ := List.mem_iff_getElem?.mp hmem
  have hilt : i < msgs.length := (List.getElem?_eq_some.mp hia).1
  have hiltm : i < models.length := hlen ▸ hilt
  obtain ⟨content, hc2, hmsgi⟩ :=
    hpoint i models[i] (List.getElem?_eq_getElem hiltm)
  rw [hia] at hmsgi
  injection hmsgi with hax
  subst hax
  simpa using hanon i hiltm

/-- The spec's ensemble anonymization example task: models `m1`, `m2`,
aggregator `m3`. -/
def ensDemoTask : DecisionTask :=
  { id := "t3", question := "Q", framework := "ensemble"
    framework_config := { models := some ["m1", "m2"], aggregator := some "m3" } }

/-- The fan-out records of the ensemble demo run under `stubEcho`. -/
def demoEnsMsgs : List AgentMessage :=
  [AgentMessage.mk "agent_0" "m1" "initial" ("m1" ++ ":" ++ "Q"),
   AgentMessage.mk "agent_1" "m2" "initial" ("m2" ++ ":" ++ "Q")]

/-- The result of the ensemble demo run under `stubEcho`. -/
def demoEnsResult : DecisionResult :=
  { task_id := "t3"
    final_answer := "m3" ++ ":" ++ aggPrompt demoEnsMsgs
    messages := demoEnsMsgs ++
      [AgentMessage.mk "aggregator" "m3" "synthesis" ("m3" ++ ":" ++ aggPrompt demoEnsMsgs)]
    metadata := [("framework", "ensemble")] }

/-- The calls the ensemble demo run issues. -/
def demoEnsCalls : List Call :=
  [("m1", [ChatMessage.mk "user" "Q"]),
   ("m2", [ChatMessage.mk "user" "Q"]),
   ("m3", [ChatMessage.mk "user" (aggPrompt demoEnsMsgs)])]

/-- Witness for the amended C3 at the spec's ensemble example, with
completion schedule `[1, 0]`. -/
theorem ensemble_anonymized_roles_witness :
    ensDemoTask.framework_config.models = some ["m1", "m2"] ∧
    ensDemoTask.framework_config.aggregator = some "m3" ∧
    run_ensemble stubEcho [1, 0] ensDemoTask =
      (Except.ok demoEnsResult, demoEnsCalls) ∧
    (∃ amsgs : List AgentMessage,
      amsgs.length = (["m1", "m2"] : List String).length ∧
      (∀ (i : Nat) (mkey : String), (["m1", "m2"] : List String)[i]? = some mkey →
        ∃ content,
        stubEcho mkey [ChatMessage.mk "user" ensDemoTask.question] = Except.ok content ∧
        amsgs[i]? =
          some (AgentMessage.mk ("agent_" ++ toString i) mkey "initial" content)) ∧
      demoEnsResult.messages =
        amsgs ++ [AgentMessage.mk "aggregator" "m3" "synthesis"
          demoEnsResult.final_answer] ∧
      demoEnsCalls = ensembleFanoutCalls ensDemoTask.question ["m1", "m2"] ++
          [("m3", [ChatMessage.mk "user" (aggPrompt amsgs)])] ∧
      ((∀ i : Nat, i < (["m1", "m2"] : List String).length →
          ("agent_" ++ toString i) ∉ (["m1", "m2"] : List String)) →
        ∀ a ∈ amsgs, a.role_id ∉ (["m1", "m2"] : List String))) := by
  have hrun : run_ensemble stubEcho [1, 0] ensDemoTask =
      (Except.ok demoEnsResult, demoEnsCalls) := by rfl
  exact ⟨rfl, rfl, hrun, ensemble_anonymized_roles rfl rfl hrun⟩

/-- A deterministic stub whose `small` backend fails while every other
model echoes like `stubEcho`. -/
def stubFailSmall : Invoke := fun key msgs =>
  if key = "small" then Except.error (RunError.invocationFailed "backend down")
  else Except.ok (key ++ ":" ++ ((msgs.getLast?).map ChatMessage.content).getD "")

/-- Claim C4: for every run of any topology, if any single model
invocation fails (any fan-out branch in council or ensemble, or any
stage in dxo), no Result is returned at all; in council and ensemble
the synthesis/aggregation call is never made after a branch failure
(the issued-call log is exactly the fan-out calls), and in dxo no
later stage is ever invoked after a failing stage (the issued-call log
stops at the failing stage). -/
theorem all_or_nothing_on_failure :
    (∀ (invoke : Invoke) (sched : List Nat) (task : DecisionTask)
        (ms : List CouncilMember) (cm : String) (i : Nat) (m : CouncilMember)
        (e : RunError),
      task.framework_config.members = some ms →
      task.framework_config.chair = some cm →
      ms[i]? = some m →
      invoke m.model [ChatMessage.mk "user" task.question] = Except.error e →
      i ∈ sched →
      (∃ er, (run_council invoke sched task).1 = Except.error er) ∧
      (run_council invoke sched task).2 = councilFanoutCalls task.question ms) ∧
    (∀ (invoke : Invoke) (sched : List Nat) (task : DecisionTask)
        (models : List String) (agg : String) (i : Nat) (mkey : String)
        (e : RunError),
      task.framework_config.models = some models →
      task.framework_config.aggregator = some agg →
      models[i]? = some mkey →
      invoke mkey [ChatMessage.mk "user" task.question] = Except.error e →
      i ∈ sched →
      (∃ er, (run_ensemble invoke sched task).1 = Except.error er) ∧
      (run_ensemble invoke sched task).2 = ensembleFanoutCalls task.question models) ∧
    (∀ (invoke : Invoke) (task : DecisionTask) (re rv sy : String) (e : RunError),
      task.framework_config.researcher = some re →
      task.framework_config.reviewer = some rv →
      task.framework_config.synthesizer = some sy →
      invoke re [ChatMessage.mk "user" (dxoResearchPrompt task.question)] =
        Except.error e →
      run_dxo invoke task =
        (Except.error e,
         [(re, [ChatMessage.mk "user" (dxoResearchPrompt task.question)])])) ∧
    (∀ (invoke : Invoke) (task : DecisionTask) (re rv sy research : String)
        (e : RunError),
      task.framework_config.researcher = some re →
      task.framework_config.reviewer = some rv →
      task.framework_config.synthesizer = some sy →
      invoke re [ChatMessage.mk "user" (dxoResearchPrompt task.question)] =
        Except.ok research →
      invoke rv [ChatMessage.mk "user" (dxoCritiquePrompt research)] =
        Except.error e →
      run_dxo invoke task =
        (Except.error e,
         [(re, [ChatMessage.mk "user" (dxoResearchPrompt task.question)]),
          (rv, [ChatMessage.mk "user" (dxoCritiquePrompt research)])])) ∧
    (∀ (invoke : Invoke) (task : DecisionTask) (re rv sy research critique : String)
        (e : RunError),
      task.framework_config.researcher = some re →
      task.framework_config.reviewer = some rv →
      task.framework_config.synthesizer = some sy →
      invoke re [ChatMessage.mk "user" (dxoResearchPrompt task.question)] =
        Except.ok research →
      invoke rv [ChatMessage.mk "user" (dxoCritiquePrompt research)] =
        Except.ok critique →
      invoke sy [ChatMessage.mk "user"
          (dxoSynthesisPrompt task.question research critique)] = Except.error e →
      run_dxo invoke task =
        (Except.error e,
         [(re, [ChatMessage.mk "user" (dxoResearchPrompt task.question)]),
          (rv, [ChatMessage.mk "user" (dxoCritiquePrompt research)]),
          (sy, [ChatMessage.mk "user"
             (dxoSynthesisPrompt task.question research critique)])])) := by
  refine ⟨?_, ?_, ?_, ?_, ?_⟩
  · intro invoke sched task ms cm i m e hm hc hmi hinv hmem
    have hbr : (ms.map (call_member invoke task.question))[i]? =
        some (Except.error e) := by
      rw [List.getElem?_map, hmi]
      simp [call_member, hinv, Except.map]
    obtain ⟨er, hg⟩ := gatherExcept_error_of_mem hmem hbr
    constructor
    · exact ⟨er, by simp [run_council, hm, hc, hg]⟩
    · simp [run_council, hm, hc, hg, councilFanoutCalls]
  · intro invoke sched task models agg i mkey e hm ha hmi hinv hmem
    have hbr : (models.enum.map (call_model invoke task.question))[i]? =
        some (Except.error e) := by
      rw [List.getElem?_map, List.getElem?_enum, hmi]
      simp [call_model, hinv, Except.map]
    obtain ⟨er, hg⟩ := gatherExcept_error_of_mem hmem hbr
    constructor
    · exact ⟨er, by simp [run_ensemble, hm, ha, hg]⟩
    · simp [run_ensemble, hm, ha, hg, ensembleFanoutCalls]
  · intro invoke task re rv sy e hre hrv hsy hinv
    simp [run_dxo, hre, hrv, hsy, hinv]
  · intro invoke task re rv sy research e hre hrv hsy h1 h2
    simp [run_dxo, hre, hrv, hsy, h1, h2]
  · intro invoke task re rv sy research critique e hre hrv hsy h1 h2 h3
    simp [run_dxo, hre, hrv, hsy, h1, h2, h3]

/-- Witness for C4: under `stubFailSmall`, the demo council run's
`small` branch fails, the run returns no Result, and only the two
fan-out calls are issued (no chair call); the demo dxo run fails at
stage 1 and issues only the researcher call. -/
theorem all_or_nothing_on_failure_witness :
    stubFailSmall "small" [ChatMessage.mk "user" "Q"] =
      Except.error (RunError.invocationFailed "backend down") ∧
    ((∃ er, (run_council stubFailSmall [0, 1] councilDemoTask).1 = Except.error er) ∧
     (run_council stubFailSmall [0, 1] councilDemoTask).2 =
       councilFanoutCalls councilDemoTask.question councilDemoMembers) ∧
    run_dxo stubFailSmall dxoDemoTask =
      (Except.error (RunError.invocationFailed "backend down"),
       [("small", [ChatMessage.mk "user" (dxoResearchPrompt dxoDemoTask.question)])]) :=
  ⟨rfl,
   all_or_nothing_on_failure.1 stubFailSmall [0, 1] councilDemoTask
     councilDemoMembers "large" 0 (CouncilMember.mk "alpha" "small")
     (RunError.invocationFailed "backend down") rfl rfl rfl rfl (by decide),
   all_or_nothing_on_failure.2.2.1 stubFailSmall dxoDemoTask "small" "small" "large"
     (RunError.invocationFailed "backend down") rfl rfl rfl rfl⟩

/-- Claim C5: each topology function is a deterministic function of
the task, the config, and the invocation responses: with extensionally
equal invocation functions and identical task, any two successful
council or ensemble runs — even under different branch-completion
schedules — return the same Result, and dxo runs are equal outright. -/
theorem topology_determinism :
    (∀ (invoke1 invoke2 : Invoke) (sched1 sched2 : List Nat) (task : DecisionTask)
        (r : DecisionResult) (s : List Call),
      (∀ k msgs, invoke1 k msgs = invoke2 k msgs) →
      run_council invoke1 sched1 task = (Except.ok r, s) →
      (run_council invoke2 sched2 task).1 = Except.ok r) ∧
    (∀ (invoke1 invoke2 : Invoke) (sched1 sched2 : List Nat) (task : DecisionTask)
        (r : DecisionResult) (s : List Call),
      (∀ k msgs, invoke1 k msgs = invoke2 k msgs) →
      run_ensemble invoke1 sched1 task = (Except.ok r, s) →
      (run_ensemble invoke2 sched2 task).1 = Except.ok r) ∧
    (∀ (invoke1 invoke2 : Invoke) (task : DecisionTask),
      (∀ k msgs, invoke1 k msgs = invoke2 k msgs) →
      run_dxo invoke1 task = run_dxo invoke2 task) := by
  refine ⟨?_, ?_, ?_⟩
  · intro invoke1 invoke2 sched1 sched2 task r s hagree hrun
    have hiq : invoke1 = invoke2 := funext fun k => funext fun m => hagree k m
    subst hiq
    rcases hm : task.framework_config.members with _ | ms
    · simp [run_council, hm] at hrun
    · rcases hc : task.framework_config.chair with _ | cm
      · simp [run_council, hm, hc] at hrun
      · obtain ⟨msgs, ans, hmap, hi, hr, hs⟩ := run_council_ok_shape hm hc hrun
        have hq := run_council_ok_intro sched2 hm hc hmap hi
        simp [hq, hr]
  · intro invoke1 invoke2 sched1 sched2 task r s hagree hrun
    have hiq : invoke1 = invoke2 := funext fun k => funext fun m => hagree k m
    subst hiq
    rcases hm : task.framework_config.models with _ | models
    · simp [run_ensemble, hm] at hrun
    · rcases ha : task.framework_config.aggregator with _ | agg
      · simp [run_ensemble, hm, ha] at hrun
      · obtain ⟨msgs, ans, hmap, hi, hr, hs⟩ := run_ensemble_ok_shape hm ha hrun
        have hq := run_ensemble_ok_intro sched2 hm ha hmap hi
        simp [hq, hr]
  · intro invoke1 invoke2 task hagree
    have hiq : invoke1 = invoke2 := funext fun k => funext fun m => hagree k m
    rw [hiq]

/-- Witness for C5: the demo council run under `stubEcho` with
schedules `[0, 1]` and `[1, 0]` returns the same Result. -/
theorem topology_determinism_witness :
    run_council stubEcho [0, 1] councilDemoTask =
      (Except.ok demoCouncilResult, demoCouncilCalls) ∧
    (run_council stubEcho [1, 0] councilDemoTask).1 = Except.ok demoCouncilResult := by
  have hrun : run_council stubEcho [0, 1] councilDemoTask =
      (Except.ok demoCouncilResult, demoCouncilCalls) := by rfl
  exact ⟨hrun, topology_determinism.1 stubEcho stubEcho [0, 1] [1, 0]
    councilDemoTask demoCouncilResult demoCouncilCalls (fun k m => rfl) hrun⟩

/-- Claim C6: for every topology, if a required config key for that
topology is absent (members or chair for council; researcher, reviewer
or synthesizer for dxo; models or aggregator for ensemble), the run
fails with the key-lookup error for that key and the issued-call log
is empty: zero model invocations occur. -/
theorem missing_config_fail_fast :
    (∀ (invoke : Invoke) (sched : List Nat) (task : DecisionTask),
      task.framework_config.members = none →
      run_council invoke sched task =
        (Except.error (RunError.keyError "members"), [])) ∧
    (∀ (invoke : Invoke) (sched : List Nat) (task : DecisionTask)
        (ms : List CouncilMember),
      task.framework_config.members = some ms →
      task.framework_config.chair = none →
      run_council invoke sched task =
        (Except.error (RunError.keyError "chair"), [])) ∧
    (∀ (invoke : Invoke) (task : DecisionTask),
      task.framework_config.researcher = none →
      run_dxo invoke task = (Except.error (RunError.keyError "researcher"), [])) ∧
    (∀ (invoke : Invoke) (task : DecisionTask) (re : String),
      task.framework_config.researcher = some re →
      task.framework_config.reviewer = none →
      run_dxo invoke task = (Except.error (RunError.keyError "reviewer"), [])) ∧
    (∀ (invoke : Invoke) (task : DecisionTask) (re rv : String),
      task.framework_config.researcher = some re →
      task.framework_config.reviewer = some rv →
      task.framework_config.synthesizer = none →
      run_dxo invoke task = (Except.error (RunError.keyError "synthesizer"), [])) ∧
    (∀ (invoke : Invoke) (sched : List Nat) (task : DecisionTask),
      task.framework_config.models = none →
      run_ensemble invoke sched task =
        (Except.error (RunError.keyError "models"), [])) ∧
    (∀ (invoke : Invoke) (sched : List Nat) (task : DecisionTask)
        (models : List String),
      task.framework_config.models = some models →
      task.framework_config.aggregator = none →
      run_ensemble invoke sched task =
        (Except.error (RunError.keyError "aggregator"), [])) := by
  refine ⟨?_, ?_, ?_, ?_, ?_, ?_, ?_⟩
  · intro invoke sched task hm
    simp [run_council, hm]
  · intro invoke sched task ms hm hc
    simp [run_council, hm, hc]
  · intro invoke task hre
    simp [run_dxo, hre]
  · intro invoke task re hre hrv
    simp [run_dxo, hre, hrv]
  · intro invoke task re rv hre hrv hsy
    simp [run_dxo, hre, hrv, hsy]
  · intro invoke sched task hm
    simp [run_ensemble, hm]
  · intro invoke sched task models hm ha
    simp [run_ensemble, hm, ha]

/-- A task whose framework config dict is empty: every key lookup is a
`KeyError`. -/
def emptyCfgTask (fw : String) : DecisionTask :=
  { id := "t0", question := "Q", framework := fw, framework_config := {} }

/-- Witness for C6: on an empty config each topology fails with the
first missing key's error and issues zero calls. -/
theorem missing_config_fail_fast_witness :
    (emptyCfgTask "council").framework_config.members = none ∧
    run_council stubEcho [] (emptyCfgTask "council") =
      (Except.error (RunError.keyError "members"), []) ∧
    run_dxo stubEcho (emptyCfgTask "dxo") =
      (Except.error (RunError.keyError "researcher"), []) ∧
    run_ensemble stubEcho [] (emptyCfgTask "ensemble") =
      (Except.error (RunError.keyError "models"), []) :=
  ⟨rfl,
   missing_config_fail_fast.1 stubEcho [] (emptyCfgTask "council") rfl,
   missing_config_fail_fast.2.2.1 stubEcho (emptyCfgTask "dxo") rfl,
   missing_config_fail_fast.2.2.2.2.2.1 stubEcho [] (emptyCfgTask "ensemble") rfl⟩

/-- Counterexample to C7 as stated: the demo council run succeeds, yet
its Result's metadata map has no `"topology"` key at all (the code
stores the name under `"framework"`). -/
theorem metadata_topology_key_cex :
    Except.map (fun r => r.metadata.lookup "topology")
      (run_council stubEcho [0, 1] councilDemoTask).1 = Except.ok none := by rfl

/-- Claim C7 (amended): for every successful run of any topology, the
returned Result's metadata map is exactly the one-entry map with key
`"framework"` (not `"topology"`) mapped to the topology's name. -/
theorem metadata_framework_key :
    (∀ (invoke : Invoke) (sched : List Nat) (task : DecisionTask)
        (ms : List CouncilMember) (cm : String) (r : DecisionResult) (s : List Call),
      task.framework_config.members = some ms →
      task.framework_config.chair = some cm →
      run_council invoke sched task = (Except.ok r, s) →
      r.metadata = [("framework", "council")]) ∧
    (∀ (invoke : Invoke) (task : DecisionTask) (re rv sy : String)
        (r : DecisionResult) (s : List Call),
      task.framework_config.researcher = some re →
      task.framework_config.reviewer = some rv →
      task.framework_config.synthesizer = some sy →
      run_dxo invoke task = (Except.ok r, s) →
      r.metadata = [("framework", "dxo")]) ∧
    (∀ (invoke : Invoke) (sched : List Nat) (task : DecisionTask)
        (models : List String) (agg : String) (r : DecisionResult) (s : List Call),
      task.framework_config.models = some models →
      task.framework_config.aggregator = some agg →
      run_ensemble invoke sched task = (Except.ok r, s) →
      r.metadata = [("framework", "ensemble")]) := by
  refine ⟨?_, ?_, ?_⟩
  · intro invoke sched task ms cm r s hm hc hrun
    obtain ⟨msgs, ans, hmap, hi, hr, hs⟩ := run_council_ok_shape hm hc hrun
    rw [hr]
  · intro invoke task re rv sy r s hre hrv hsy hrun
    obtain ⟨research, critique, synthesis, h1, h2, h3, hr, hs⟩ :=
      run_dxo_ok_shape hre hrv hsy hrun
    rw [hr]
  · intro invoke sched task models agg r s hm ha hrun
    obtain ⟨msgs, ans, hmap, hi, hr, hs⟩ := run_ensemble_ok_shape hm ha hrun
    rw [hr]

/-- Witness for the amended C7 at the demo council run. -/
theorem metadata_framework_key_witness :
    run_council stubEcho [0, 1] councilDemoTask =
      (Except.ok demoCouncilResult, demoCouncilCalls) ∧
    demoCouncilResult.metadata = [("framework", "council")] := by
  have hrun : run_council stubEcho [0, 1] councilDemoTask =
      (Except.ok demoCouncilResult, demoCouncilCalls) := by rfl
  exact ⟨hrun, metadata_framework_key.1 stubEcho [0, 1] councilDemoTask
    councilDemoMembers "large" demoCouncilResult demoCouncilCalls rfl rfl hrun⟩

/-- Claim C8: requesting a topology name that is not one of "council",
"dxo", "ensemble" fails at the dispatch with the
`ValueError("Unknown framework")` of `cli/main.py`, with zero model
invocations performed. -/
theorem invalid_topology_dispatch (invoke : Invoke) (sched : List Nat)
    (idStr question framework : String)
    (h1 : framework ≠ "council") (h2 : framework ≠ "dxo")
    (h3 : framework ≠ "ensemble") :
    main_run invoke sched idStr question framework =
      (Except.error (RunError.valueError "Unknown framework"), []) := by
  simp [main_run, h1, h2, h3]

/-- Witness for C8 at the spec's example topology name `quorum`. -/
theorem invalid_topology_dispatch_witness :
    ("quorum" : String) ≠ "council" ∧ ("quorum" : String) ≠ "dxo" ∧
    ("quorum" : String) ≠ "ensemble" ∧
    main_run stubEcho [] "id0" "Q" "quorum" =
      (Except.error (RunError.valueError "Unknown framework"), []) :=
  ⟨by decide, by decide, by decide,
   invalid_topology_dispatch stubEcho [] "id0" "Q" "quorum"
     (by decide) (by decide) (by decide)⟩

/-- A council task whose configured members list is empty. -/
def emptyMembersTask : DecisionTask :=
  { id := "t9", question := "Q", framework := "council"
    framework_config := { members := some [], chair := some "large" } }

/-- Counterexample to C9 as stated: a council config with an empty
members list is not rejected before any model invocation — the run
proceeds to the chair synthesis call (exactly one invocation is
issued) and returns a Result. -/
theorem empty_config_not_rejected_cex :
    Except.map (fun r => r.final_answer)
      (run_council stubEcho [] emptyMembersTask).1 =
      Except.ok ("large" ++ ":" ++ build_chair_prompt "Q" []) ∧
    (run_council stubEcho [] emptyMembersTask).2 =
      [("large", [ChatMessage.mk "user" (build_chair_prompt "Q" [])])] :=
  ⟨by rfl, by rfl⟩

/-- Claim C9 (amended): an empty members/models list is not validated
at dispatch: the run proceeds over an empty fan-out, makes only the
synthesis/aggregation call, and returns a Result whose trace is the
single chair/aggregator record. -/
theorem empty_fanout_proceeds :
    (∀ (invoke : Invoke) (sched : List Nat) (task : DecisionTask) (cm ans : String),
      task.framework_config.members = some [] →
      task.framework_config.chair = some cm →
      invoke cm [ChatMessage.mk "user" (build_chair_prompt task.question [])] =
        Except.ok ans →
      run_council invoke sched task =
        (Except.ok
          { task_id := task.id, final_answer := ans
            messages := [AgentMessage.mk "chair" cm "synthesis" ans]
            metadata := [("framework", "council")] },
         [(cm, [ChatMessage.mk "user" (build_chair_prompt task.question [])])])) ∧
    (∀ (invoke : Invoke) (sched : List Nat) (task : DecisionTask) (agg ans : String),
      task.framework_config.models = some [] →
      task.framework_config.aggregator = some agg →
      invoke agg [ChatMessage.mk "user" (aggPrompt [])] = Except.ok ans →
      run_ensemble invoke sched task =
        (Except.ok
          { task_id := task.id, final_answer := ans
            messages := [AgentMessage.mk "aggregator" agg "synthesis" ans]
            metadata := [("framework", "ensemble")] },
         [(agg, [ChatMessage.mk "user" (aggPrompt [])])])) := by
  constructor
  · intro invoke sched task cm ans hm hc hi
    have h0 : ([] : List CouncilMember).map (call_member invoke task.question) =
        ([] : List AgentMessage).map Except.ok := rfl
    have hq := run_council_ok_intro sched hm hc h0 hi
    simpa [councilFanoutCalls] using hq
  · intro invoke sched task agg ans hm ha hi
    have h0 : ([] : List String).enum.map (call_model invoke task.question) =
        ([] : List AgentMessage).map Except.ok := rfl
    have hq := run_ensemble_ok_intro sched hm ha h0 hi
    simpa [ensembleFanoutCalls] using hq

/-- Witness for the amended C9 at the empty-members council task. -/
theorem empty_fanout_proceeds_witness :
    emptyMembersTask.framework_config.members = some [] ∧
    emptyMembersTask.framework_config.chair = some "large" ∧
    stubEcho "large" [ChatMessage.mk "user"
        (build_chair_prompt emptyMembersTask.question [])] =
      Except.ok ("large" ++ ":" ++ build_chair_prompt "Q" []) ∧
    run_council stubEcho [] emptyMembersTask =
      (Except.ok
        { task_id := "t9"
          final_answer := "large" ++ ":" ++ build_chair_prompt "Q" []
          messages := [AgentMessage.mk "chair" "large" "synthesis"
            ("large" ++ ":" ++ build_chair_prompt "Q" [])]
          metadata := [("framework", "council")] },
       [("large", [ChatMessage.mk "user" (build_chair_prompt "Q" [])])]) :=
  ⟨rfl, rfl, rfl,
   empty_fanout_proceeds.1 stubEcho [] emptyMembersTask "large"
     ("large" ++ ":" ++ build_chair_prompt "Q" []) rfl rfl rfl⟩

/-- Claim C10: for every task and every topology function, the input
task is unchanged by the run: its id, question, framework, and
framework config fields are identical before and after the call (the
runners never assign to the task, so the task-state threading forms
return it as received). -/
theorem task_not_mutated (invoke : Invoke) (sched : List Nat) (task : DecisionTask) :
    ((run_council_state invoke sched task).2.id = task.id ∧
     (run_council_state invoke sched task).2.question = task.question ∧
     (run_council_state invoke sched task).2.framework = task.framework ∧
     (run_council_state invoke sched task).2.framework_config =
       task.framework_config) ∧
    ((run_dxo_state invoke task).2.id = task.id ∧
     (run_dxo_state invoke task).2.question = task.question ∧
     (run_dxo_state invoke task).2.framework = task.framework ∧
     (run_dxo_state invoke task).2.framework_config = task.framework_config) ∧
    ((run_ensemble_state invoke sched task).2.id = task.id ∧
     (run_ensemble_state invoke sched task).2.question = task.question ∧
     (run_ensemble_state invoke sched task).2.framework = task.framework ∧
     (run_ensemble_state invoke sched task).2.framework_config =
       task.framework_config) :=
  ⟨⟨rfl, rfl, rfl, rfl⟩, ⟨rfl, rfl, rfl, rfl⟩, ⟨rfl, rfl, rfl, rfl⟩⟩
